import Mathlib

/-!
Verification development for `src/pulse_counter.c`: a GPIO pulse counter
built on libgpiod v2 that supports up to `MAX_PINS = 2` concurrent pins
with a background epoll thread.

Embedding conventions.  The module-level C globals are gathered into one
record `PCState`.  The C arrays `pulse_counts[MAX_PINS]` and
`pin_offsets[MAX_PINS]` become functions `Fin MAX_PINS → _`; the sentinel
value `pin_offsets[i] == -1` marks an unassigned slot, exactly as in the C.
Counters are C `uint64_t`, modelled as `Nat` reduced modulo `2 ^ 64` at
every write.  Since `MAX_PINS` is the compile-time constant 2, the C
`for (i = 0; i < MAX_PINS; i++)` loops are unrolled to their two
iterations.  Fallible external calls (libgpiod allocations, `epoll`,
`pthread_create`) are modelled by a record `HwEnv` of call outcomes, so the
control flow of `build_request`, `py_start` and `event_loop` is traced
faithfully for every pattern of failures.  `find_slot`'s C return value of
`-1` (not found) is `none`; a found index `i` is `some i`.  The Python
wrappers return `Except PyErr α` (raising an exception = `Except.error`)
paired with the post-state; the argument-parse failure branches
(`PyArg_ParseTuple`) are outside the model, which passes arguments as
already-parsed C ints.
-/

/-- `#define MAX_PINS 2`. -/
abbrev MAX_PINS : Nat := 2

/-- Modulus of the C `uint64_t` counters. -/
def U64_MOD : Nat := 2 ^ 64

/-- The module-level mutable state of `pulse_counter.c`:
`pulse_counts`, `pin_offsets`, `num_registered`, `chip`, `request`,
`request_fd`, `epoll_fd`, `thread_running`.  The pointer-valued globals
`chip` and `request` are abstracted to "is non-NULL" booleans. -/
structure PCState where
  pulse_counts : Fin MAX_PINS → Nat
  pin_offsets : Fin MAX_PINS → Int
  num_registered : Int
  chip : Bool
  request : Bool
  request_fd : Int
  epoll_fd : Int
  thread_running : Bool

/-- Python exceptions raised by the wrappers. -/
inductive PyErr where
  | runtimeError (msg : String)
  | valueError (msg : String)
deriving DecidableEq

/-- The state after `PyInit_pulse_counter` (also matches the static
initializers): all slots unassigned, all counters zero, no resources. -/
def initState : PCState :=
  { pulse_counts := fun _ => 0
    pin_offsets := fun _ => -1
    num_registered := 0
    chip := false
    request := false
    request_fd := -1
    epoll_fd := -1
    thread_running := false }

/-- `find_slot(pin)`: first `i < MAX_PINS` with `pin_offsets[i] == pin`,
else -1 (here `none`).  The two-iteration loop is unrolled. -/
def find_slot (offs : Fin MAX_PINS → Int) (pin : Int) : Option (Fin MAX_PINS) :=
  if offs 0 = pin then some 0
  else if offs 1 = pin then some 1
  else none

/-- `register_pin_internal(pin)`: returns the slot index (0..1) or -1
(`none` here is not used; the C int result is kept as `Int`), paired with
the updated globals.  Capacity is checked before the duplicate lookup,
exactly as in the C; the free-slot scan `pin_offsets[i] == -1` is
`find_slot offs (-1)`. -/
def register_pin_internal (s : PCState) (pin : Int) : Int × PCState :=
  if s.num_registered ≥ (MAX_PINS : Int) then (-1, s)
  else
    match find_slot s.pin_offsets pin with
    | some i => ((i : Fin MAX_PINS).val, s)
    | none =>
      match find_slot s.pin_offsets (-1) with
      | some i =>
        ((i : Fin MAX_PINS).val,
         { s with
            pin_offsets := Function.update s.pin_offsets i pin
            pulse_counts := Function.update s.pulse_counts i 0
            num_registered := s.num_registered + 1 })
      | none => (-1, s)

/-- `py_register_pin`: rejects while the event thread runs, otherwise
defers to `register_pin_internal` and raises on a negative slot. -/
def py_register_pin (s : PCState) (pin : Int) : Except PyErr Int × PCState :=
  if s.thread_running then
    (.error (.runtimeError "Cannot register pin after start()"), s)
  else
    let r := register_pin_internal s pin
    if r.1 < 0 then
      (.error (.runtimeError "No available slots or duplicate pin"), r.2)
    else (.ok r.1, r.2)

/-- Outcomes of the fallible external calls made by `build_request`,
`py_start` and `event_loop`: each field tells whether the corresponding
libgpiod / epoll / pthread call succeeds, and the file descriptors
returned by the `_fd` calls. -/
structure HwEnv where
  chip_open_ok : Bool
  settings_new_ok : Bool
  lcfg_new_ok : Bool
  add_line_settings_ok : Bool
  rcfg_new_ok : Bool
  request_ok : Bool
  request_fd_val : Int
  epoll_fd_val : Int
  epoll_ctl_ok : Bool
  pthread_create_ok : Bool
  buffer_new_ok : Bool

/-- `build_request()`: engages the hardware step by step, mutating the
globals `chip`, `request`, `request_fd`, `epoll_fd` exactly where the C
assigns them; returns 0 on success, -1 on failure.  The local
`settings`/`lcfg`/`rcfg` objects are not part of `PCState` (they are
freed on every path); only the global handles are traced. -/
def build_request (env : HwEnv) (s : PCState) : Int × PCState :=
  if s.num_registered ≤ 0 then (-1, s)
  else
    let s1 := { s with chip := env.chip_open_ok }
    if ¬env.chip_open_ok then (-1, s1)
    else if ¬env.settings_new_ok then (-1, s1)
    else if ¬env.lcfg_new_ok then (-1, s1)
    else if ¬env.add_line_settings_ok then (-1, s1)
    else if ¬env.rcfg_new_ok then (-1, s1)
    else
      let s2 := { s1 with request := env.request_ok }
      if ¬env.request_ok then (-1, s2)
      else
        let s3 := { s2 with request_fd := env.request_fd_val }
        if s3.request_fd < 0 then (-1, s3)
        else
          let s4 := { s3 with epoll_fd := env.epoll_fd_val }
          if s4.epoll_fd < 0 then (-1, s4)
          else if ¬env.epoll_ctl_ok then (-1, s4)
          else (0, s4)

/-- `release_request()`: closes the epoll fd, releases the line request
and the chip, resetting all four resource globals. -/
def release_request (s : PCState) : PCState :=
  { s with epoll_fd := -1, request_fd := -1, request := false, chip := false }

/-- `py_start`: no-op when already running; errors with no pins; else
builds the request and spawns the event thread, rolling the request back
only when `pthread_create` itself fails. -/
def py_start (env : HwEnv) (s : PCState) : Except PyErr Unit × PCState :=
  if s.thread_running then (.ok (), s)
  else if s.num_registered ≤ 0 then
    (.error (.runtimeError "No pins registered"), s)
  else
    let r := build_request env s
    if r.1 = 0 then
      if env.pthread_create_ok then (.ok (), { r.2 with thread_running := true })
      else
        (.error (.runtimeError "Failed to start event thread"),
         release_request { r.2 with thread_running := false })
    else (.error (.runtimeError "Failed to start event thread"), r.2)

/-- `py_stop`: no-op if not running; otherwise clears the flag, joins the
thread and releases the request. -/
def py_stop (s : PCState) : Except PyErr Unit × PCState :=
  if ¬s.thread_running then (.ok (), s)
  else (.ok (), release_request { s with thread_running := false })

/-- `py_get_count`: 0 for an unknown pin, else the slot's counter. -/
def py_get_count (s : PCState) (pin : Int) : Except PyErr Nat × PCState :=
  match find_slot s.pin_offsets pin with
  | none => (.ok 0, s)
  | some i => (.ok (s.pulse_counts i), s)

/-- `py_reset_count`: zeroes the slot's counter if the pin is known. -/
def py_reset_count (s : PCState) (pin : Int) : Except PyErr Unit × PCState :=
  match find_slot s.pin_offsets pin with
  | none => (.ok (), s)
  | some i => (.ok (), { s with pulse_counts := Function.update s.pulse_counts i 0 })

/-- `py_trigger_interrupt`: test helper; adds `count` (cast to `uint64_t`
when positive) to the slot's counter, errors on an unknown pin. -/
def py_trigger_interrupt (s : PCState) (pin count : Int) : Except PyErr Int × PCState :=
  match find_slot s.pin_offsets pin with
  | none => (.error (.valueError "Pin not registered"), s)
  | some i =>
    if count > 0 then
      let c := (s.pulse_counts i + count.toNat) % U64_MOD
      (.ok count, { s with pulse_counts := Function.update s.pulse_counts i c })
    else (.ok count, s)

/-- `py_check_interrupts`: no-op kept for compatibility. -/
def py_check_interrupts (s : PCState) : Except PyErr Unit × PCState :=
  (.ok (), s)

/-- `py_cleanup`: joins the thread if running, releases the request, then
clears both arrays and `num_registered`.  Never raises. -/
def py_cleanup (s : PCState) : Except PyErr Unit × PCState :=
  let s1 := release_request { s with thread_running := false }
  (.ok (),
   { s1 with
      pin_offsets := fun _ => -1
      pulse_counts := fun _ => 0
      num_registered := 0 })

/-- One edge event inside a drained batch: `none` models
`gpiod_edge_event_buffer_get_event` returning NULL (skipped by the C
`continue`), `some off` an event whose line offset reads back as the C
int `off`. -/
def apply_event (s : PCState) (ev : Option Int) : PCState :=
  match ev with
  | none => s
  | some off =>
    match find_slot s.pin_offsets off with
    | none => s
    | some slot =>
      let c := (s.pulse_counts slot + 1) % U64_MOD
      { s with pulse_counts := Function.update s.pulse_counts slot c }

/-- The inner `for (i = 0; i < readn; i++)` pass of `event_loop` over one
batch of read edge events. -/
def processEvents (evs : List (Option Int)) (s : PCState) : PCState :=
  evs.foldl apply_event s

/-- One `epoll_wait` outcome seen by the loop: a timeout / spurious wakeup
(`n <= 0`, loop continues), or readiness on `request_fd` (the only fd in
the epoll set) followed by the `do { read; process } while` drain, whose
successful reads returned the listed batches; the drain ends when a read
returns `<= 0` — the C does not distinguish an empty read from a read
error, both just fall back to `epoll_wait`. -/
inductive WaitOutcome where
  | timeout
  | ready (batches : List (List (Option Int)))

/-- Effect of one iteration of the `while (thread_running)` loop body. -/
def run_iteration (s : PCState) (w : WaitOutcome) : PCState :=
  match w with
  | .timeout => s
  | .ready batches => batches.foldl (fun st b => processEvents b st) s

/-- `event_loop`: if the event-buffer allocation fails the thread clears
`thread_running` and returns at once — without touching the request
globals and without recording any error.  Otherwise it processes the given
script of `epoll_wait` outcomes while `thread_running` holds (the flag is
only ever changed by the other thread, so a single check guards the whole
script in this sequential model). -/
def event_loop (env : HwEnv) (script : List WaitOutcome) (s : PCState) : PCState :=
  if ¬env.buffer_new_ok then { s with thread_running := false }
  else if s.thread_running then script.foldl run_iteration s
  else s

/-- Environment in which every hardware call succeeds. -/
def envAllOk : HwEnv :=
  { chip_open_ok := true
    settings_new_ok := true
    lcfg_new_ok := true
    add_line_settings_ok := true
    rcfg_new_ok := true
    request_ok := true
    request_fd_val := 5
    epoll_fd_val := 6
    epoll_ctl_ok := true
    pthread_create_ok := true
    buffer_new_ok := true }

/-- Environment where `gpiod_line_settings_new` fails (after the chip was
already opened). -/
def envNoSettings : HwEnv := { envAllOk with settings_new_ok := false }

/-- Environment where `gpiod_edge_event_buffer_new` fails inside the
event thread. -/
def envNoBuffer : HwEnv := { envAllOk with buffer_new_ok := false }

/-- State after registering pin 17 from the initial state. -/
def regState17 : PCState := (py_register_pin initState 17).2

/-- State after registering pins 17 and 27: the registry is full. -/
def fullState : PCState := (py_register_pin regState17 27).2

/-- Running state: both pins registered, hardware engaged, thread up. -/
def runState : PCState := (py_start envAllOk fullState).2

/-- The registry invariant of claim C10, at `MAX_PINS = 2`:
`num_registered` is within bounds and counts the assigned entries, and
assigned pin identifiers are pairwise distinct. -/
def RegInv (s : PCState) : Prop :=
  0 ≤ s.num_registered ∧ s.num_registered ≤ (MAX_PINS : Int) ∧
  s.num_registered =
    ((if s.pin_offsets 0 ≠ -1 then 1 else 0) + (if s.pin_offsets 1 ≠ -1 then 1 else 0) : Int) ∧
  (s.pin_offsets 0 ≠ -1 → s.pin_offsets 1 ≠ -1 → s.pin_offsets 0 ≠ s.pin_offsets 1)

instance (s : PCState) : Decidable (RegInv s) := by
  unfold RegInv; infer_instance

theorem find_slot_eq_none {offs : Fin MAX_PINS → Int} {pin : Int} :
    find_slot offs pin = none ↔ offs 0 ≠ pin ∧ offs 1 ≠ pin := by
  unfold find_slot; split_ifs <;> simp_all

theorem find_slot_eq_some_zero {offs : Fin MAX_PINS → Int} {pin : Int} :
    find_slot offs pin = some 0 ↔ offs 0 = pin := by
  unfold find_slot; split_ifs <;> simp_all

theorem find_slot_eq_some_one {offs : Fin MAX_PINS → Int} {pin : Int} :
    find_slot offs pin = some 1 ↔ offs 0 ≠ pin ∧ offs 1 = pin := by
  unfold find_slot; split_ifs <;> simp_all

theorem find_slot_some_eq {offs : Fin MAX_PINS → Int} {pin : Int} {i : Fin MAX_PINS}
    (h : find_slot offs pin = some i) : offs i = pin := by
  unfold find_slot at h; split_ifs at h <;> simp_all

/-- C6: while the event thread runs, `py_register_pin` raises for every
pin identifier (registered or not) and leaves the whole state unchanged. -/
theorem c6_register_while_running (s : PCState) (pin : Int)
    (h : s.thread_running = true) :
    py_register_pin s pin =
      (.error (.runtimeError "Cannot register pin after start()"), s) := by
  simp [py_register_pin, h]

/-- C6 witness: concrete running state, re-registering the already
registered pin 17. -/
theorem c6_register_while_running_witness :
    py_register_pin runState 17 =
      (.error (.runtimeError "Cannot register pin after start()"), runState) :=
  c6_register_while_running runState 17 rfl

/-- C8: `py_get_count` on a pin with no slot (`find_slot` misses, i.e. the
pin is not currently registered) returns `0` without raising, in every
state. -/
theorem c8_get_count_unregistered (s : PCState) (pin : Int)
    (h : find_slot s.pin_offsets pin = none) :
    py_get_count s pin = (.ok 0, s) := by
  simp [py_get_count, h]

/-- C8 witness: pin 99 was never registered in `regState17`. -/
theorem c8_get_count_unregistered_witness :
    py_get_count regState17 99 = (.ok 0, regState17) :=
  c8_get_count_unregistered regState17 99 (by decide)

/-- C9: `py_start` invoked while the thread is already running returns
success immediately and changes nothing — no new thread, no hardware
engagement (the environment is irrelevant), registry, counters and
resource handles untouched. -/
theorem c9_start_while_running_noop (env : HwEnv) (s : PCState)
    (h : s.thread_running = true) :
    py_start env s = (.ok (), s) := by
  simp [py_start, h]

/-- C9 witness: starting again from the running state, even in an
environment where every hardware call would fail, is a silent no-op. -/
theorem c9_start_while_running_noop_witness :
    py_start envNoSettings runState = (.ok (), runState) :=
  c9_start_while_running_noop envNoSettings runState rfl

/-- C7: `py_cleanup` from any state succeeds, empties the registry
(all offsets -1, `num_registered = 0`), zeroes all counters, releases
every hardware resource, clears the running flag, and afterwards
`py_get_count` returns 0 for every pin identifier. -/
theorem c7_cleanup_total (s : PCState) (pin : Int) :
    (py_cleanup s).1 = .ok () ∧
    (py_cleanup s).2.num_registered = 0 ∧
    (∀ i, (py_cleanup s).2.pin_offsets i = -1) ∧
    (∀ i, (py_cleanup s).2.pulse_counts i = 0) ∧
    (py_cleanup s).2.chip = false ∧
    (py_cleanup s).2.request = false ∧
    (py_cleanup s).2.request_fd = -1 ∧
    (py_cleanup s).2.epoll_fd = -1 ∧
    (py_cleanup s).2.thread_running = false ∧
    (py_get_count (py_cleanup s).2 pin).1 = .ok 0 := by
  refine ⟨rfl, rfl, fun i => rfl, fun i => rfl, rfl, rfl, rfl, rfl, rfl, ?_⟩
  simp only [py_get_count, py_cleanup, find_slot]
  split_ifs <;> rfl

/-- C1 counterexample: with the registry at full capacity (pins 17 and
27 registered, pin 17 originally assigned slot 0), re-registering pin 17
raises instead of returning slot 0: `register_pin_internal` checks
`num_registered >= MAX_PINS` before the duplicate lookup. -/
theorem c1_full_capacity_counterexample :
    (py_register_pin initState 17).1 = .ok 0 ∧
    fullState.num_registered = 2 ∧
    (py_register_pin fullState 17).1 =
      .error (.runtimeError "No available slots or duplicate pin") ∧
    (py_register_pin fullState 17).1 ≠ .ok 0 := by
  refine ⟨rfl, rfl, rfl, fun h => nomatch h⟩

/-- C1 amended: while the thread is not running and the registry is NOT
at full capacity, registering an already-registered pin returns its
existing slot with no side effect at all. -/
theorem c1_register_idempotent_below_capacity (s : PCState) (pin : Int)
    (i : Fin MAX_PINS)
    (hrun : s.thread_running = false)
    (hcap : s.num_registered < (MAX_PINS : Int))
    (hfs : find_slot s.pin_offsets pin = some i) :
    py_register_pin s pin = (.ok (i.val : Int), s) := by
  have hcap2 : s.num_registered < 2 := by exact_mod_cast hcap
  have hge : ¬ ((i.val : Int) < 0) := not_lt.mpr (Int.natCast_nonneg _)
  simp [py_register_pin, register_pin_internal, hrun, not_le.mpr hcap2, hfs, hge]

/-- C1 amended witness: re-registering pin 17 with one free slot left
returns slot 0 and leaves the state untouched. -/
theorem c1_register_idempotent_below_capacity_witness :
    py_register_pin regState17 17 = (.ok ((0 : Fin MAX_PINS).val : Int), regState17) :=
  c1_register_idempotent_below_capacity regState17 17 0 rfl (by decide) (by decide)

/-- C2: when `build_request` fails after the chip was opened (the
line-settings allocation fails), `py_start` raises and the registered
pins and non-running flag are preserved — but the open chip handle is
retained: `py_start` does not call `release_request` on this path, so a
resource is leaked, contradicting the roll-back requirement. -/
theorem c2_start_failure_retains_chip :
    (py_start envNoSettings regState17).1 =
      .error (.runtimeError "Failed to start event thread") ∧
    (py_start envNoSettings regState17).2.thread_running = false ∧
    (py_start envNoSettings regState17).2.pin_offsets = regState17.pin_offsets ∧
    (py_start envNoSettings regState17).2.num_registered = 1 ∧
    (py_start envNoSettings regState17).2.chip = true := by
  exact ⟨rfl, rfl, rfl, rfl, rfl⟩

/-- C3: if the event-buffer allocation fails on entry to `event_loop`
while the system is running with the hardware engaged, the loop only
clears `thread_running` and exits: the chip and line request remain held
(no `release_request`), and the next caller-visible operations surface
nothing — `py_get_count` answers normally and `py_stop`, now seeing
`thread_running == 0`, returns success without ever releasing the
request.  A failing edge-event read (`ready []`: the drain's first read
returns `<= 0`) does not even leave the loop: the state is unchanged and
the loop keeps waiting, silently stalling the counters. -/
theorem c3_acquisition_fault_not_latched :
    runState.thread_running = true ∧ runState.request = true ∧
    (event_loop envNoBuffer [] runState).thread_running = false ∧
    (event_loop envNoBuffer [] runState).chip = true ∧
    (event_loop envNoBuffer [] runState).request = true ∧
    (py_get_count (event_loop envNoBuffer [] runState) 17).1 = .ok 0 ∧
    (py_stop (event_loop envNoBuffer [] runState)).1 = .ok () ∧
    (py_stop (event_loop envNoBuffer [] runState)).2.request = true ∧
    event_loop envAllOk [.ready []] runState = runState := by
  refine ⟨rfl, rfl, rfl, rfl, rfl, rfl, rfl, rfl, rfl⟩

/-- C4: from the empty registry with the thread stopped, registering
three pairwise-distinct valid (nonnegative — `-1` is the unassigned
sentinel, not a line identifier) pin identifiers yields the distinct
slots 0 and 1 (all of `[0, MAX_PINS)`), and the third distinct
registration raises the capacity error. -/
theorem c4_distinct_pins_capacity (p0 p1 p2 : Int)
    (h0 : 0 ≤ p0) (h1 : 0 ≤ p1) (h2 : 0 ≤ p2)
    (h01 : p0 ≠ p1) (h02 : p0 ≠ p2) (h12 : p1 ≠ p2) :
    (py_register_pin initState p0).1 = .ok 0 ∧
    (py_register_pin (py_register_pin initState p0).2 p1).1 = .ok 1 ∧
    (py_register_pin (py_register_pin (py_register_pin initState p0).2 p1).2 p2).1 =
      .error (.runtimeError "No available slots or duplicate pin") := by
  have n0 : (-1 : Int) ≠ p0 := by omega
  have n1 : (-1 : Int) ≠ p1 := by omega
  have n2 : (-1 : Int) ≠ p2 := by omega
  have m0 : p0 ≠ (-1 : Int) := by omega
  have m1 : p1 ≠ (-1 : Int) := by omega
  have m2 : p2 ≠ (-1 : Int) := by omega
  have f10 : (1 : Fin MAX_PINS) ≠ 0 := by decide
  have f01 : (0 : Fin MAX_PINS) ≠ 1 := by decide
  refine ⟨?_, ?_, ?_⟩ <;>
    simp [py_register_pin, register_pin_internal, find_slot, initState,
          Function.update_apply, n0, n1, n2, m0, m1, m2, f10, f01,
          h01, h02, h12, h01.symm, h02.symm, h12.symm]

/-- C4 witness at pins 17, 27, 22. -/
theorem c4_distinct_pins_capacity_witness :
    (py_register_pin initState 17).1 = .ok 0 ∧
    (py_register_pin (py_register_pin initState 17).2 27).1 = .ok 1 ∧
    (py_register_pin (py_register_pin (py_register_pin initState 17).2 27).2 22).1 =
      .error (.runtimeError "No available slots or duplicate pin") :=
  c4_distinct_pins_capacity 17 27 22 (by decide) (by decide) (by decide)
    (by decide) (by decide) (by decide)

/-- Draining a batch adds to slot `i`'s counter exactly the number of
events carrying the pin identifier `p` assigned to `i` (below the
`uint64_t` wrap). -/
theorem processEvents_count (evs : List (Option Int)) (s : PCState)
    (p : Int) (i : Fin MAX_PINS)
    (hi : find_slot s.pin_offsets p = some i)
    (hb : s.pulse_counts i + evs.count (some p) < U64_MOD) :
    (processEvents evs s).pulse_counts i = s.pulse_counts i + evs.count (some p) := by
  induction evs generalizing s with
  | nil => simp [processEvents]
  | cons ev rest ih =>
    cases ev with
    | none =>
      have hc : (none :: rest).count (some p) = rest.count (some p) := by simp
      rw [hc] at hb ⊢
      exact ih s hi hb
    | some q =>
      by_cases hq : q = p
      · subst hq
        have hc : (some q :: rest).count (some q) = rest.count (some q) + 1 := by simp
        rw [hc] at hb ⊢
        have hlt : s.pulse_counts i + 1 < U64_MOD := by omega
        have hmod : (s.pulse_counts i + 1) % U64_MOD = s.pulse_counts i + 1 :=
          Nat.mod_eq_of_lt hlt
        have hs' : apply_event s (some q) =
            { s with pulse_counts :=
                Function.update s.pulse_counts i ((s.pulse_counts i + 1) % U64_MOD) } := by
          simp [apply_event, hi]
        have step : processEvents (some q :: rest) s =
            processEvents rest
              { s with pulse_counts :=
                  Function.update s.pulse_counts i ((s.pulse_counts i + 1) % U64_MOD) } := by
          simp only [processEvents, List.foldl_cons, hs']
        rw [step]
        have hupd : (Function.update s.pulse_counts i ((s.pulse_counts i + 1) % U64_MOD)) i =
            s.pulse_counts i + 1 := by
          rw [Function.update_same, hmod]
        have := ih { s with pulse_counts :=
              Function.update s.pulse_counts i ((s.pulse_counts i + 1) % U64_MOD) }
            hi (by simp only [Function.update_same, hmod]; omega)
        rw [this]
        simp [hupd]
        omega
      · have hc : (some q :: rest).count (some p) = rest.count (some p) := by
          simp [List.count_cons, hq, Ne.symm hq]
        rw [hc] at hb ⊢
        cases hfs : find_slot s.pin_offsets q with
        | none =>
          have hs' : apply_event s (some q) = s := by simp [apply_event, hfs]
          have step : processEvents (some q :: rest) s = processEvents rest s := by
            simp only [processEvents, List.foldl_cons, hs']
          rw [step]
          exact ih s hi hb
        | some j =>
          have hij : i ≠ j := by
            intro h
            have e1 := find_slot_some_eq hfs
            have e2 := find_slot_some_eq hi
            rw [← h] at e1
            exact hq (e1.symm.trans e2)
          have hs' : apply_event s (some q) =
              { s with pulse_counts :=
                  Function.update s.pulse_counts j ((s.pulse_counts j + 1) % U64_MOD) } := by
            simp [apply_event, hfs]
          have step : processEvents (some q :: rest) s =
              processEvents rest
                { s with pulse_counts :=
                    Function.update s.pulse_counts j ((s.pulse_counts j + 1) % U64_MOD) } := by
            simp only [processEvents, List.foldl_cons, hs']
          rw [step]
          have hcnt : (Function.update s.pulse_counts j ((s.pulse_counts j + 1) % U64_MOD)) i =
              s.pulse_counts i := Function.update_noteq hij _ _
          have := ih { s with pulse_counts :=
                Function.update s.pulse_counts j ((s.pulse_counts j + 1) % U64_MOD) }
              hi (by simpa [hcnt] using hb)
          rw [this]
          simp [hcnt]

/-- Draining a batch whose events all miss the registry changes nothing. -/
theorem processEvents_unmapped (evs : List (Option Int)) (s : PCState)
    (hd : (evs.all fun ev =>
            match ev with
            | none => true
            | some off => (find_slot s.pin_offsets off).isNone) = true) :
    processEvents evs s = s := by
  induction evs with
  | nil => rfl
  | cons ev rest ih =>
    simp only [List.all_cons, Bool.and_eq_true] at hd
    have h1 : apply_event s ev = s := by
      cases ev with
      | none => rfl
      | some off =>
        have hn : find_slot s.pin_offsets off = none := by
          simpa [Option.isNone_iff_eq_none] using hd.1
        simp [apply_event, hn]
    have step : processEvents (ev :: rest) s = processEvents rest s := by
      simp only [processEvents, List.foldl_cons, h1]
    rw [step]
    exact ih hd.2

/-- C5: in one drain pass, every event carrying the pin identifier `p`
registered at slot `i` bumps exactly that slot by exactly 1 (so N such
events add exactly N, below the `uint64_t` wrap), and a batch of events
that resolve to no registered slot is discarded with no state change. -/
theorem c5_event_batch_exact_counts (s : PCState) (evs evs2 : List (Option Int))
    (p : Int) (i : Fin MAX_PINS)
    (hi : find_slot s.pin_offsets p = some i)
    (hb : s.pulse_counts i + evs.count (some p) < U64_MOD)
    (hd : (evs2.all fun ev =>
            match ev with
            | none => true
            | some off => (find_slot s.pin_offsets off).isNone) = true) :
    (processEvents evs s).pulse_counts i = s.pulse_counts i + evs.count (some p) ∧
    processEvents evs2 s = s :=
  ⟨processEvents_count evs s p i hi hb, processEvents_unmapped evs2 s hd⟩

/-- C5 witness: running state with pin 17 at slot 0; a batch of two
pin-17 events, a NULL event and an unknown-pin event adds exactly 2;
a batch of only unknown-pin events is a no-op. -/
theorem c5_event_batch_exact_counts_witness :
    (processEvents [some 17, none, some 99, some 17] runState).pulse_counts 0 =
      runState.pulse_counts 0 + [some 17, none, some 99, some 17].count (some 17) ∧
    processEvents [some 99, none] runState = runState :=
  c5_event_batch_exact_counts runState [some 17, none, some 99, some 17]
    [some 99, none] 17 0 (by decide) (by decide) (by decide)

/-- Operations that do not touch `pin_offsets` or `num_registered`
preserve the registry invariant. -/
theorem RegInv_of_frame (t s : PCState) (h : RegInv s)
    (ho : t.pin_offsets = s.pin_offsets)
    (hn : t.num_registered = s.num_registered) : RegInv t := by
  unfold RegInv at h ⊢
  rw [ho, hn]
  exact h

/-- `build_request`, written as a flat decision tree (the `let`-bound
intermediate states zeta-reduce away definitionally). -/
theorem build_request_eq (env : HwEnv) (s : PCState) :
    build_request env s =
      if s.num_registered ≤ 0 then (-1, s)
      else if ¬env.chip_open_ok then (-1, { s with chip := env.chip_open_ok })
      else if ¬env.settings_new_ok then (-1, { s with chip := env.chip_open_ok })
      else if ¬env.lcfg_new_ok then (-1, { s with chip := env.chip_open_ok })
      else if ¬env.add_line_settings_ok then (-1, { s with chip := env.chip_open_ok })
      else if ¬env.rcfg_new_ok then (-1, { s with chip := env.chip_open_ok })
      else if ¬env.request_ok then
        (-1, { s with chip := env.chip_open_ok, request := env.request_ok })
      else if env.request_fd_val < 0 then
        (-1, { s with chip := env.chip_open_ok, request := env.request_ok,
                      request_fd := env.request_fd_val })
      else if env.epoll_fd_val < 0 then
        (-1, { s with chip := env.chip_open_ok, request := env.request_ok,
                      request_fd := env.request_fd_val, epoll_fd := env.epoll_fd_val })
      else if ¬env.epoll_ctl_ok then
        (-1, { s with chip := env.chip_open_ok, request := env.request_ok,
                      request_fd := env.request_fd_val, epoll_fd := env.epoll_fd_val })
      else
        (0, { s with chip := env.chip_open_ok, request := env.request_ok,
                     request_fd := env.request_fd_val, epoll_fd := env.epoll_fd_val }) :=
  rfl

set_option maxHeartbeats 1000000 in
/-- `build_request` never touches the registry fields. -/
theorem build_request_registry_frame (env : HwEnv) (s : PCState) :
    (build_request env s).2.pin_offsets = s.pin_offsets ∧
    (build_request env s).2.num_registered = s.num_registered := by
  rw [build_request_eq]
  split_ifs <;> exact ⟨rfl, rfl⟩

/-- `py_start` never touches the registry fields. -/
theorem py_start_registry_frame (env : HwEnv) (s : PCState) :
    (py_start env s).2.pin_offsets = s.pin_offsets ∧
    (py_start env s).2.num_registered = s.num_registered := by
  have hbr := build_request_registry_frame env s
  by_cases ht : s.thread_running
  · simp [py_start, ht]
  · by_cases hn : s.num_registered ≤ 0
    · simp [py_start, ht, hn]
    · by_cases hrc : (build_request env s).1 = 0
      · by_cases hp : env.pthread_create_ok <;>
          simp [py_start, ht, hn, hrc, hp, release_request, hbr.1, hbr.2]
      · simp [py_start, ht, hn, hrc, hbr.1, hbr.2]

/-- `register_pin_internal` preserves the registry invariant. -/
theorem RegInv_register_pin_internal (s : PCState) (pin : Int) (h : RegInv s) :
    RegInv (register_pin_internal s pin).2 := by
  unfold register_pin_internal
  split_ifs with hcap
  · exact h
  · cases hfs : find_slot s.pin_offsets pin with
    | some i => exact h
    | none =>
      cases hfree : find_slot s.pin_offsets (-1) with
      | none => exact h
      | some i =>
        obtain ⟨hb0, hb1, hcnt, hdis⟩ := h
        have hno := find_slot_eq_none.mp hfs
        have hpin : pin ≠ -1 := by
          intro hp
          rw [hp, hfree] at hfs
          cases hfs
        have hcap2 : s.num_registered < 2 := by
          simpa [MAX_PINS] using not_le.mp hcap
        unfold find_slot at hfree
        split_ifs at hfree with g0 g1
        · injection hfree with hi
          subst hi
          have key : s.num_registered = (if s.pin_offsets 1 ≠ -1 then (1 : Int) else 0) := by
            rw [hcnt]
            simp [g0]
          unfold RegInv
          refine ⟨?_, ?_, ?_, ?_⟩
          · show (0 : Int) ≤ s.num_registered + 1
            omega
          · show s.num_registered + 1 ≤ (MAX_PINS : Int)
            show s.num_registered + 1 ≤ (2 : Int)
            rcases Decidable.em (s.pin_offsets 1 = -1) with h1 | h1 <;>
              simp [h1] at key <;> omega
          · show s.num_registered + 1 =
              (if pin ≠ -1 then (1 : Int) else 0) + (if s.pin_offsets 1 ≠ -1 then (1 : Int) else 0)
            rcases Decidable.em (s.pin_offsets 1 = -1) with h1 | h1 <;>
              simp [hpin, h1] at key ⊢ <;> omega
          · show pin ≠ -1 → s.pin_offsets 1 ≠ -1 → pin ≠ s.pin_offsets 1
            intro _ _ he
            exact hno.2 he.symm
        · injection hfree with hi
          subst hi
          have key : s.num_registered = (if s.pin_offsets 0 ≠ -1 then (1 : Int) else 0) := by
            rw [hcnt]
            simp [g1]
          unfold RegInv
          refine ⟨?_, ?_, ?_, ?_⟩
          · show (0 : Int) ≤ s.num_registered + 1
            omega
          · show s.num_registered + 1 ≤ (MAX_PINS : Int)
            show s.num_registered + 1 ≤ (2 : Int)
            rcases Decidable.em (s.pin_offsets 0 = -1) with h1 | h1 <;>
              simp [h1] at key <;> omega
          · show s.num_registered + 1 =
              (if s.pin_offsets 0 ≠ -1 then (1 : Int) else 0) + (if pin ≠ -1 then (1 : Int) else 0)
            rcases Decidable.em (s.pin_offsets 0 = -1) with h1 | h1 <;>
              simp [hpin, h1] at key ⊢ <;> omega
          · show s.pin_offsets 0 ≠ -1 → pin ≠ -1 → s.pin_offsets 0 ≠ pin
            intro _ _
            exact hno.1

/-- C10: the registry invariant — `0 ≤ num_registered ≤ MAX_PINS`,
`num_registered` counts the entries with `pin_offsets[i] != -1`, and
assigned pin identifiers are pairwise distinct — holds in the initial
state and is preserved by every exposed operation. -/
theorem c10_registry_invariant (s : PCState) (pin count : Int) (env : HwEnv)
    (h : RegInv s) :
    RegInv initState ∧
    RegInv (py_register_pin s pin).2 ∧
    RegInv (py_start env s).2 ∧
    RegInv (py_stop s).2 ∧
    RegInv (py_get_count s pin).2 ∧
    RegInv (py_reset_count s pin).2 ∧
    RegInv (py_trigger_interrupt s pin count).2 ∧
    RegInv (py_check_interrupts s).2 ∧
    RegInv (py_cleanup s).2 := by
  refine ⟨by decide, ?_, ?_, ?_, ?_, ?_, ?_, h, ?_⟩
  · by_cases ht : s.thread_running
    · simpa [py_register_pin, ht] using h
    · have hr := RegInv_register_pin_internal s pin h
      by_cases hs : (register_pin_internal s pin).1 < 0 <;>
        simpa [py_register_pin, ht, hs] using hr
  · exact RegInv_of_frame _ s h (py_start_registry_frame env s).1
      (py_start_registry_frame env s).2
  · unfold py_stop release_request
    split_ifs <;> exact RegInv_of_frame _ s h rfl rfl
  · unfold py_get_count
    cases find_slot s.pin_offsets pin <;> exact h
  · unfold py_reset_count
    cases find_slot s.pin_offsets pin <;> exact RegInv_of_frame _ s h rfl rfl
  · unfold py_trigger_interrupt
    cases find_slot s.pin_offsets pin with
    | none => exact h
    | some i =>
      split_ifs <;> exact RegInv_of_frame _ s h rfl rfl
  · have h2 : (py_cleanup s).2.num_registered = 0 := rfl
    have ho0 : (py_cleanup s).2.pin_offsets 0 = -1 := rfl
    have ho1 : (py_cleanup s).2.pin_offsets 1 = -1 := rfl
    unfold RegInv
    rw [h2, ho0, ho1]
    norm_num

/-- C10 witness: concrete check of every operation from the initial
state. -/
theorem c10_registry_invariant_witness :
    RegInv initState ∧
    RegInv (py_register_pin initState 17).2 ∧
    RegInv (py_start envAllOk initState).2 ∧
    RegInv (py_stop initState).2 ∧
    RegInv (py_get_count initState 17).2 ∧
    RegInv (py_reset_count initState 17).2 ∧
    RegInv (py_trigger_interrupt initState 17 5).2 ∧
    RegInv (py_check_interrupts initState).2 ∧
    RegInv (py_cleanup initState).2 :=
  c10_registry_invariant initState 17 5 envAllOk (by decide)
